import Mathlib

/-!
Verification of the HR Apps Script repository (loan ledger + payroll engine).

The spreadsheet-backed record store is embedded shallowly: a sheet is a
`List` of typed rows (one structure field per column the code reads or
writes), monetary values are exact rationals `ℚ` (the spec mandates a
decimal/fixed-point representation for monetary arithmetic), and dates and
timestamps are `Nat` epoch milliseconds, exactly the `getTime()` values the
source compares.  `Array.prototype.sort` in the V8 runtime used by Apps
Script is a stable sort, so it is embedded as `List.insertionSort`, which is
stable, under the decidable total preorder given by the source's comparator.
-/

/-- A data row of the `loans` sheet, with one field per column that
`Loans.js` reads or writes: `LoanID`, `Employee ID`, `Timestamp` (recording
time, epoch ms), `TransactionDate` (epoch ms), `LoanAmount` (signed),
`BalanceBefore`, `BalanceAfter`, and `SalaryLink` standing for the remaining
pass-through columns. -/
structure LoanRow where
  loanId : String
  employeeId : String
  timestamp : Nat
  transactionDate : Nat
  loanAmount : ℚ
  balanceBefore : ℚ
  balanceAfter : ℚ
  salaryLink : String
deriving DecidableEq, Inhabited

/-- The chronological order used by both `getLoanHistory` and
`recalculateLoanBalances`: ascending `TransactionDate`, ties broken by
ascending `Timestamp`.  This is the source comparator
`dateA - dateB; if equal, timestampA - timestampB` as a total preorder. -/
def loanLE (a b : LoanRow) : Prop :=
  a.transactionDate < b.transactionDate ∨
    (a.transactionDate = b.transactionDate ∧ a.timestamp ≤ b.timestamp)

instance : DecidableRel loanLE := fun a b => by
  unfold loanLE; exact inferInstance

instance : IsTotal LoanRow loanLE := by
  constructor; intro a b; unfold loanLE; omega

instance : IsTrans LoanRow loanLE := by
  constructor; intro a b c; unfold loanLE; omega

/-- The same order on sheet rows paired with their row index (the
`{ rowIndex, rowData }` items sorted inside `recalculateLoanBalances`). -/
def loanLEIdx (a b : Nat × LoanRow) : Prop := loanLE a.2 b.2

instance : DecidableRel loanLEIdx := fun a b => by
  unfold loanLEIdx; exact inferInstance

instance : IsTotal (Nat × LoanRow) loanLEIdx := by
  constructor; intro a b; exact IsTotal.total (r := loanLE) a.2 b.2

instance : IsTrans (Nat × LoanRow) loanLEIdx := by
  constructor; intro a b c h1 h2; exact IsTrans.trans (r := loanLE) _ _ _ h1 h2

/-- `getLoanHistory` of `Loans.js`: the employee's rows of the loans sheet,
sorted by `(TransactionDate, Timestamp)` ascending. -/
def getLoanHistory (s : List LoanRow) (e : String) : List LoanRow :=
  (s.filter fun t => t.employeeId = e).insertionSort loanLE

/-- `getCurrentLoanBalance` of `Loans.js`: `BalanceAfter` of the last entry
of the sorted history, or `0` when the history is empty. -/
def getCurrentLoanBalance (s : List LoanRow) (e : String) : ℚ :=
  let history := getLoanHistory s e
  if history.length = 0 then 0 else (history.getLastD default).balanceAfter

/-- The balance-recomputation walk of `recalculateLoanBalances`: starting
from `currentBalance`, each sorted row (tagged with its sheet index) gets
`BalanceBefore := currentBalance` and
`BalanceAfter := currentBalance + LoanAmount`. -/
def runBal (bal : ℚ) : List (Nat × LoanRow) → List (Nat × ℚ × ℚ)
  | [] => []
  | (i, r) :: rest => (i, bal, bal + r.loanAmount) :: runBal (bal + r.loanAmount) rest

/-- Looks up the recomputed balance pair written at sheet index `i`. -/
def findU : List (Nat × ℚ × ℚ) → Nat → Option (ℚ × ℚ)
  | [], _ => none
  | u :: us, i => if u.1 = i then some u.2 else findU us i

/-- Applies the recomputed balances to the row at one sheet position: the
source's `setValue` calls touch exactly the `BalanceBefore` / `BalanceAfter`
cells of the updated row indices and nothing else. -/
def applyU (us : List (Nat × ℚ × ℚ)) (p : Nat × LoanRow) : LoanRow :=
  match findU us p.1 with
  | some bb => { p.2 with balanceBefore := bb.1, balanceAfter := bb.2 }
  | none => p.2

/-- `recalculateLoanBalances` of `Loans.js`: take the employee's rows with
their sheet indices, sort them chronologically, walk them from balance `0`
recomputing each balance pair, and write the pairs back at the recorded row
indices.  The source performs the write-back as a sequence of single-cell
`setValue` calls at pairwise-distinct row indices; this is embedded as the
equivalent positional map over the sheet. -/
def recalculateLoanBalances (s : List LoanRow) (e : String) : List LoanRow :=
  let employeeRows := ((s.enum).filter fun p => p.2.employeeId = e).insertionSort loanLEIdx
  let updates := runBal 0 employeeRows
  (s.enum).map (applyU updates)

/-- `validateLoan` form input: `Employee Name` (empty string for a missing
or empty, i.e. falsy, value), `LoanAmount` (`none` for an absent value),
`LoanType`, and `TransactionDate` (`none` for an absent value). -/
structure LoanForm where
  employeeName : String
  loanAmount : Option ℚ
  loanType : String
  transactionDate : Option Nat
deriving DecidableEq, Inhabited

/-- Result of a validation routine: the `{ isValid, errors }` object. -/
structure Validation where
  isValid : Bool
  errors : List String
deriving DecidableEq, Inhabited

/-- `validateLoan` of `Loans.js`: pushes one message per violated rule, in
source order; `!data.LoanAmount || data.LoanAmount <= 0` means the amount
is absent, zero or negative. -/
def validateLoan (d : LoanForm) : Validation :=
  let errors :=
    (if d.employeeName = "" then ["Employee name is required."] else []) ++
    (if (match d.loanAmount with | none => true | some a => a ≤ 0) then
      ["Loan amount must be a positive number."] else []) ++
    (if d.transactionDate = none then ["Transaction date is required."] else [])
  { isValid := errors.length = 0, errors := errors }

/-- An employee record as consumed by the engines: `ID`, `EMPLOYEE NAME`,
`HOURLY RATE`, `EMPLOYMENT STATUS` of the `EMPLOYEE DETAILS` sheet. -/
structure Employee where
  id : String
  name : String
  hourlyRate : ℚ
  employmentStatus : String
deriving DecidableEq, Inhabited

/-- `getEmployeeByName` of `Employees.js`: first row whose `EMPLOYEE NAME`
column equals the requested name, else `null`. -/
def getEmployeeByName (emps : List Employee) (name : String) : Option Employee :=
  emps.find? fun emp => emp.name = name

/-- Raw payslip/timesheet form input.  Each numeric column is an
`Option ℚ`: `none` models a field that is absent or non-numeric, on which
the source's `parseFloat` yields `NaN`; `some q` a field parsing to `q`. -/
structure PayslipInput where
  employeeName : String
  weekEnding : Option Nat
  hours : Option ℚ
  minutes : Option ℚ
  overtimeHours : Option ℚ
  overtimeMinutes : Option ℚ
  leavePay : Option ℚ
  bonusPay : Option ℚ
  otherIncome : Option ℚ
  otherDeductions : Option ℚ
  loanDeductionThisWeek : Option ℚ
  newLoanThisWeek : Option ℚ
deriving DecidableEq, Inhabited

/-- The source idiom `parseFloat(x) || 0`: an absent or non-numeric field
(`parseFloat` gives `NaN`, which is falsy) coerces to `0`; a parsed number
is kept (`0` itself is falsy and also coerces to `0`). -/
def num (x : Option ℚ) : ℚ := x.getD 0

/-- The derived fields computed by `calculatePayslip`, together with the
input they were computed from (the source copies every input key into the
result object). -/
structure PayslipComputed where
  input : PayslipInput
  hourlyRate : ℚ
  standardTime : ℚ
  overtime : ℚ
  grossSalary : ℚ
  uif : ℚ
  totalDeductions : ℚ
  netSalary : ℚ
  paidToAccount : ℚ
deriving DecidableEq, Inhabited

/-- `calculatePayslip` of `Payroll.js`.  `none` models the thrown
`Employee not found` error. -/
def calculatePayslip (emps : List Employee) (d : PayslipInput) : Option PayslipComputed :=
  match getEmployeeByName emps d.employeeName with
  | none => none
  | some employee =>
    let hourlyRate := employee.hourlyRate
    let hours := num d.hours
    let minutes := num d.minutes
    let overtimeHours := num d.overtimeHours
    let overtimeMinutes := num d.overtimeMinutes
    let leavePay := num d.leavePay
    let bonusPay := num d.bonusPay
    let otherIncome := num d.otherIncome
    let otherDeductions := num d.otherDeductions
    let loanDeduction := num d.loanDeductionThisWeek
    let newLoan := num d.newLoanThisWeek
    let standardTime := hours * hourlyRate + hourlyRate / 60 * minutes
    let overtime := overtimeHours * hourlyRate * (3 / 2) + hourlyRate / 60 * overtimeMinutes * (3 / 2)
    let grossSalary := standardTime + overtime + leavePay + bonusPay + otherIncome
    let uif := if employee.employmentStatus = "Permanent" then grossSalary * (1 / 100) else 0
    let totalDeductions := uif + otherDeductions + loanDeduction
    let netSalary := grossSalary - totalDeductions
    let paidToAccount := netSalary - loanDeduction + newLoan
    some { input := d, hourlyRate := hourlyRate, standardTime := standardTime,
           overtime := overtime, grossSalary := grossSalary, uif := uif,
           totalDeductions := totalDeductions, netSalary := netSalary,
           paidToAccount := paidToAccount }

/-- `validatePayslip` of `Payroll.js`: presence of name and week ending,
non-negative hours, and the 168-hours-per-week cap on
`hours + overtimeHours`. -/
def validatePayslip (d : PayslipInput) : Validation :=
  let errors :=
    (if d.employeeName = "" then ["Employee Name is required"] else []) ++
    (if d.weekEnding = none then ["Week Ending date is required"] else []) ++
    (if num d.hours < 0 ∨ num d.overtimeHours < 0 then ["Hours cannot be negative"] else []) ++
    (if num d.hours + num d.overtimeHours > 168 then
      ["Total hours exceed maximum possible (168 hours/week)"] else [])
  { isValid := errors.length = 0, errors := errors }

/-- `validateTimesheet` of `Timesheets.js`: presence of name and week
ending and non-negative hours.  It has no 168-hour rule. -/
def validateTimesheet (d : PayslipInput) : Validation :=
  let errors :=
    (if d.employeeName = "" then ["Employee name is required"] else []) ++
    (if d.weekEnding = none then ["Week ending date is required"] else []) ++
    (if num d.hours < 0 ∨ num d.overtimeHours < 0 then ["Hours cannot be negative"] else [])
  { isValid := errors.length = 0, errors := errors }

/-- A data row of the `salary` sheet: `RECORDNUMBER` is the first column
(the one `createPayslip` reads back), the computed payslip fields, and the
`TIMESTAMP` and `USER` audit columns. -/
structure PayslipRow where
  recordNumber : ℚ
  computed : PayslipComputed
  timestamp : Nat
  user : String
deriving DecidableEq, Inhabited

/-- The source line
`sheet.getRange(sheet.getLastRow(), 1).getValue() || 7915`: the column-1
cell of the last sheet row, with a falsy (zero or blank) value replaced by
the floor `7915`.  On a sheet with data rows the last row's column 1 is the
last record number.  On a sheet with no data rows the read lands on the
header cell, a non-numeric artifact; that case is modelled as the floor. -/
def lastRecordNumber (rows : List PayslipRow) : ℚ :=
  match rows.getLast? with
  | some r => if r.recordNumber = 0 then 7915 else r.recordNumber
  | none => 7915

/-- Result of `createPayslip`: validation failure with the error list, the
caught-exception message, or success carrying the new record number. -/
inductive CreateResult where
  | failure (errors : List String)
  | errorMsg (message : String)
  | success (message : String) (recordNumber : ℚ)
deriving DecidableEq

/-- `createPayslip` of `Payroll.js`: validate, calculate, assign
`lastRecordNumber + 1`, append the row.  The thrown employee-not-found
error is caught and returned as the generic message.  The loans sheet is
threaded through unchanged: the function body never calls into `Loans.js`,
so no loan-ledger write ever happens here. -/
def createPayslip (emps : List Employee) (salary : List PayslipRow)
    (loans : List LoanRow) (now : Nat) (user : String) (d : PayslipInput) :
    (List PayslipRow × List LoanRow) × CreateResult :=
  let validation := validatePayslip d
  if validation.isValid = false then ((salary, loans), .failure validation.errors)
  else
    match calculatePayslip emps d with
    | none => ((salary, loans), .errorMsg "An error occurred while creating the payslip.")
    | some calculatedData =>
      let lastRec := lastRecordNumber salary
      let newRow : PayslipRow :=
        { recordNumber := lastRec + 1, computed := calculatedData,
          timestamp := now, user := user }
      ((salary ++ [newRow], loans), .success "Payslip created successfully." (lastRec + 1))

/-- `syncLoanForPayslip` of `Loans.js`: the body of the source function is
empty apart from the comment "This is now fully implemented and will be
called by the trigger" — it performs no mutation at all. -/
def syncLoanForPayslip (recordNumber : ℚ) (loans : List LoanRow) : List LoanRow :=
  loans

/-- Result of `addLoanTransaction`. -/
inductive LoanAddResult where
  | failure (errors : List String)
  | notFound (message : String)
  | success (message : String)
deriving DecidableEq

/-- `addLoanTransaction` of `Loans.js`: validate (returning early with the
error list and no sheet mutation on failure), resolve the employee,
recalculate, snapshot the balance, append the signed transaction
(`Repayment` is stored negative, anything else positive), recalculate
again.  `newId` stands for `generateUUID()` and `now` for `new Date()`. -/
def addLoanTransaction (emps : List Employee) (s : List LoanRow)
    (newId : String) (now : Nat) (d : LoanForm) : List LoanRow × LoanAddResult :=
  let validation := validateLoan d
  if validation.isValid = false then (s, .failure validation.errors)
  else
    match getEmployeeByName emps d.employeeName with
    | none => (s, .notFound "Employee not found.")
    | some employee =>
      let employeeId := employee.id
      let s1 := recalculateLoanBalances s employeeId
      let balanceBefore := getCurrentLoanBalance s1 employeeId
      let amount := if d.loanType = "Repayment" then -|d.loanAmount.getD 0| else |d.loanAmount.getD 0|
      let newRow : LoanRow :=
        { loanId := newId, employeeId := employeeId, timestamp := now,
          transactionDate := d.transactionDate.getD 0, loanAmount := amount,
          balanceBefore := balanceBefore, balanceAfter := balanceBefore + amount,
          salaryLink := "" }
      (recalculateLoanBalances (s1 ++ [newRow]) employeeId, .success "Loan transaction added successfully.")

/-- The balance-recomputation walk applied directly to the sorted rows. -/
def applyRun (b : ℚ) : List (Nat × LoanRow) → List LoanRow
  | [] => []
  | (_, r) :: rest =>
    { r with balanceBefore := b, balanceAfter := b + r.loanAmount } ::
      applyRun (b + r.loanAmount) rest

/-- The balance-chain invariant of the spec, from a given opening balance:
`balanceBefore` of the head equals the opening balance, every row has
`balanceAfter = balanceBefore + loanAmount`, and each row's `balanceBefore`
is the previous row's `balanceAfter`. -/
def balancedFrom : ℚ → List LoanRow → Prop
  | _, [] => True
  | b, r :: rest =>
    r.balanceBefore = b ∧ r.balanceAfter = b + r.loanAmount ∧ balancedFrom r.balanceAfter rest

instance balancedFromDec : (b : ℚ) → (l : List LoanRow) → Decidable (balancedFrom b l)
  | _, [] => Decidable.isTrue trivial
  | b, r :: rest =>
    have : Decidable (balancedFrom r.balanceAfter rest) := balancedFromDec r.balanceAfter rest
    inferInstanceAs (Decidable (_ ∧ _ ∧ _))

/-- A loans-sheet row used to instantiate the frame property. -/
def frameRow1 : LoanRow :=
  { loanId := "L1", employeeId := "E1", timestamp := 1, transactionDate := 10,
    loanAmount := 100, balanceBefore := 5, balanceAfter := 7, salaryLink := "s1" }

/-- A second loans-sheet row, owned by a different employee. -/
def frameRow2 : LoanRow :=
  { loanId := "L2", employeeId := "E2", timestamp := 2, transactionDate := 20,
    loanAmount := 50, balanceBefore := 1, balanceAfter := 2, salaryLink := "s2" }

/-- An invalid loan form violating all three loan rules. -/
def badLoanForm : LoanForm :=
  { employeeName := "", loanAmount := some (-5), loanType := "Repayment",
    transactionDate := none }

/-- A pre-existing ledger row used to exhibit the absence of mutation. -/
def ledgerRow : LoanRow :=
  { loanId := "L7", employeeId := "E7", timestamp := 3, transactionDate := 30,
    loanAmount := 20, balanceBefore := 0, balanceAfter := 20, salaryLink := "s7" }

/-- The employee of the worked payroll example. -/
def aliceEmployee : Employee :=
  { id := "E1", name := "Alice", hourlyRate := 100, employmentStatus := "Permanent" }

/-- The worked payroll example: 40 hours, 5 overtime hours, everything else
zero. -/
def aliceWeek : PayslipInput :=
  { employeeName := "Alice", weekEnding := some 1700000000000, hours := some 40,
    minutes := some 0, overtimeHours := some 5, overtimeMinutes := some 0,
    leavePay := some 0, bonusPay := some 0, otherIncome := some 0,
    otherDeductions := some 0, loanDeductionThisWeek := some 0, newLoanThisWeek := some 0 }

/-- Replaces every absent/non-numeric numeric field of a payslip input by a
literal zero — the value the source's `parseFloat(x) || 0` produces. -/
def fillZeros (d : PayslipInput) : PayslipInput :=
  { d with
    hours := some (num d.hours)
    minutes := some (num d.minutes)
    overtimeHours := some (num d.overtimeHours)
    overtimeMinutes := some (num d.overtimeMinutes)
    leavePay := some (num d.leavePay)
    bonusPay := some (num d.bonusPay)
    otherIncome := some (num d.otherIncome)
    otherDeductions := some (num d.otherDeductions)
    loanDeductionThisWeek := some (num d.loanDeductionThisWeek)
    newLoanThisWeek := some (num d.newLoanThisWeek) }

/-- A payslip input whose numeric fields are all absent or non-numeric. -/
def blankInput : PayslipInput :=
  { employeeName := "Bob", weekEnding := some 5, hours := none, minutes := none,
    overtimeHours := none, overtimeMinutes := none, leavePay := none, bonusPay := none,
    otherIncome := none, otherDeductions := none, loanDeductionThisWeek := none,
    newLoanThisWeek := none }

/-- A timesheet input with 100 regular and 70 overtime hours and every
other field valid. -/
def overloadedWeek : PayslipInput :=
  { employeeName := "Cara", weekEnding := some 9, hours := some 100, minutes := some 0,
    overtimeHours := some 70, overtimeMinutes := some 0, leavePay := some 0,
    bonusPay := some 0, otherIncome := some 0, otherDeductions := some 0,
    loanDeductionThisWeek := some 0, newLoanThisWeek := some 0 }

/-- A payslip input at the 168-hour boundary: 100 regular and 68 overtime
hours. -/
def boundaryWeek : PayslipInput :=
  { employeeName := "Dan", weekEnding := some 9, hours := some 100, minutes := some 0,
    overtimeHours := some 68, overtimeMinutes := some 0, leavePay := some 0,
    bonusPay := some 0, otherIncome := some 0, otherDeductions := some 0,
    loanDeductionThisWeek := some 0, newLoanThisWeek := some 0 }

/-- Modelled from the spec: "`recordNumber`: monotonically increasing
integer, unique, assigned at creation as `max(existing) + 1` (or a
configured floor if none exist)" — the refinement target the source is
compared against. -/
def specNextRecordNumber (rows : List PayslipRow) : ℚ :=
  ((rows.map PayslipRow.recordNumber).foldr max 7915) + 1

/-- The row `createPayslip` appends on success. -/
def appendedRow (salary : List PayslipRow) (c : PayslipComputed) (now : Nat) (user : String) : PayslipRow :=
  { recordNumber := lastRecordNumber salary + 1, computed := c, timestamp := now, user := user }

/-- The employee list of the record-number examples. -/
def recnumEmps : List Employee :=
  [{ id := "E5", name := "Eve", hourlyRate := 10, employmentStatus := "Temporary" }]

/-- A valid payslip input for the record-number examples. -/
def recnumInput : PayslipInput :=
  { employeeName := "Eve", weekEnding := some 9, hours := some 1, minutes := some 0,
    overtimeHours := some 0, overtimeMinutes := some 0, leavePay := some 0,
    bonusPay := some 0, otherIncome := some 0, otherDeductions := some 0,
    loanDeductionThisWeek := some 0, newLoanThisWeek := some 0 }

/-- A salary sheet whose last row does not carry the maximal record
number. -/
def unsortedSalary : List PayslipRow :=
  [{ recordNumber := 8000, computed := default, timestamp := 0, user := "u" },
   { recordNumber := 7920, computed := default, timestamp := 0, user := "u" }]

/-- Runs `createPayslip` on a list of inputs in order, threading the salary
sheet, and collects the record numbers of the successful creations. -/
def createRun (emps : List Employee) (now : Nat) (user : String) :
    List PayslipInput → List PayslipRow → List PayslipRow × List ℚ
  | [], salary => (salary, [])
  | d :: ds, salary =>
    match createPayslip emps salary [] now user d with
    | ((salary2, _), CreateResult.success _ n) =>
      ((createRun emps now user ds salary2).1, n :: (createRun emps now user ds salary2).2)
    | ((salary2, _), _) => createRun emps now user ds salary2

/-- The employee of the ledger-coupling example. -/
def loanCoupleEmps : List Employee :=
  [{ id := "E2", name := "Fay", hourlyRate := 10, employmentStatus := "Temporary" }]

/-- A valid payslip input with a positive loan deduction. -/
def loanCoupleInput : PayslipInput :=
  { employeeName := "Fay", weekEnding := some 9, hours := some 1, minutes := some 0,
    overtimeHours := some 0, overtimeMinutes := some 0, leavePay := some 0,
    bonusPay := some 0, otherIncome := some 0, otherDeductions := some 0,
    loanDeductionThisWeek := some 50, newLoanThisWeek := some 0 }

/-- A pre-existing loans-ledger row. -/
def loanCoupleRow : LoanRow :=
  { loanId := "L9", employeeId := "E2", timestamp := 1, transactionDate := 1,
    loanAmount := 200, balanceBefore := 0, balanceAfter := 200, salaryLink := "x" }

/-- A pre-existing loans ledger. -/
def loanCoupleLedger : List LoanRow := [loanCoupleRow]

theorem applyU_loanId (us : List (Nat × ℚ × ℚ)) (p : Nat × LoanRow) :
    (applyU us p).loanId = p.2.loanId := by
  unfold applyU; cases findU us p.1 <;> rfl

theorem applyU_employeeId (us : List (Nat × ℚ × ℚ)) (p : Nat × LoanRow) :
    (applyU us p).employeeId = p.2.employeeId := by
  unfold applyU; cases findU us p.1 <;> rfl

theorem applyU_timestamp (us : List (Nat × ℚ × ℚ)) (p : Nat × LoanRow) :
    (applyU us p).timestamp = p.2.timestamp := by
  unfold applyU; cases findU us p.1 <;> rfl

theorem applyU_transactionDate (us : List (Nat × ℚ × ℚ)) (p : Nat × LoanRow) :
    (applyU us p).transactionDate = p.2.transactionDate := by
  unfold applyU; cases findU us p.1 <;> rfl

theorem applyU_loanAmount (us : List (Nat × ℚ × ℚ)) (p : Nat × LoanRow) :
    (applyU us p).loanAmount = p.2.loanAmount := by
  unfold applyU; cases findU us p.1 <;> rfl

theorem applyU_salaryLink (us : List (Nat × ℚ × ℚ)) (p : Nat × LoanRow) :
    (applyU us p).salaryLink = p.2.salaryLink := by
  unfold applyU; cases findU us p.1 <;> rfl

theorem loanLE_applyU (us : List (Nat × ℚ × ℚ)) (a b : Nat × LoanRow) :
    loanLE (applyU us a) (applyU us b) ↔ loanLEIdx a b := by
  unfold loanLE loanLEIdx
  rw [applyU_transactionDate, applyU_transactionDate, applyU_timestamp, applyU_timestamp]
  exact Iff.rfl

theorem orderedInsert_map_rel {α β : Type} (r : α → α → Prop) [DecidableRel r]
    (r2 : β → β → Prop) [DecidableRel r2] (g : β → α)
    (hg : ∀ a b, r (g a) (g b) ↔ r2 a b) (x : β) :
    ∀ l : List β, (l.map g).orderedInsert r (g x) = (l.orderedInsert r2 x).map g
  | [] => rfl
  | b :: t => by
    simp only [List.map, List.orderedInsert]
    by_cases h : r2 x b
    · rw [if_pos ((hg x b).mpr h), if_pos h]
      rfl
    · rw [if_neg (fun hc => h ((hg x b).mp hc)), if_neg h, List.map,
        orderedInsert_map_rel r r2 g hg x t]

theorem insertionSort_map_rel {α β : Type} (r : α → α → Prop) [DecidableRel r]
    (r2 : β → β → Prop) [DecidableRel r2] (g : β → α)
    (hg : ∀ a b, r (g a) (g b) ↔ r2 a b) :
    ∀ l : List β, (l.map g).insertionSort r = (l.insertionSort r2).map g
  | [] => rfl
  | b :: t => by
    simp only [List.map, List.insertionSort]
    rw [insertionSort_map_rel r r2 g hg t, orderedInsert_map_rel r r2 g hg b]

theorem runBal_map_fst (b : ℚ) :
    ∀ S : List (Nat × LoanRow), (runBal b S).map Prod.fst = S.map Prod.fst
  | [] => rfl
  | (i, r) :: t => by
    simp only [runBal, List.map]
    rw [runBal_map_fst (b + r.loanAmount) t]

theorem runBal_map_rel (g : Nat × LoanRow → Nat × LoanRow)
    (h1 : ∀ p, (g p).1 = p.1) (h2 : ∀ p, (g p).2.loanAmount = p.2.loanAmount) (b : ℚ) :
    ∀ S : List (Nat × LoanRow), runBal b (S.map g) = runBal b S
  | [] => rfl
  | (i, r) :: t => by
    have hp1 := h1 (i, r)
    have hp2 := h2 (i, r)
    simp only [List.map, runBal]
    cases hgp : g (i, r) with
    | mk j q =>
      rw [hgp] at hp1 hp2
      simp only at hp1 hp2
      simp only [runBal, hp1, hp2]
      rw [runBal_map_rel g h1 h2 (b + r.loanAmount) t]

theorem findU_eq_none (i : Nat) :
    ∀ us : List (Nat × ℚ × ℚ), i ∉ us.map Prod.fst → findU us i = none
  | [], _ => rfl
  | u :: us, h => by
    simp only [List.map_cons, List.mem_cons, not_or] at h
    unfold findU
    rw [if_neg (fun hc => h.1 hc.symm)]
    exact findU_eq_none i us h.2

theorem map_applyU_cons (i : Nat) (x : ℚ × ℚ) (us : List (Nat × ℚ × ℚ)) :
    ∀ S : List (Nat × LoanRow), i ∉ S.map Prod.fst →
      S.map (applyU ((i, x) :: us)) = S.map (applyU us)
  | [], _ => rfl
  | p :: t, h => by
    simp only [List.map_cons, List.mem_cons, not_or] at h
    have hfind : findU ((i, x) :: us) p.1 = findU us p.1 := by
      rw [show findU ((i, x) :: us) p.1 = if i = p.1 then some x else findU us p.1 from rfl]
      exact if_neg h.1
    have hhead : applyU ((i, x) :: us) p = applyU us p := by
      unfold applyU
      rw [hfind]
    rw [List.map_cons, List.map_cons, hhead, map_applyU_cons i x us t h.2]

theorem map_applyU_runBal :
    ∀ (S : List (Nat × LoanRow)) (b : ℚ), (S.map Prod.fst).Nodup →
      S.map (applyU (runBal b S)) = applyRun b S
  | [], _, _ => rfl
  | (i, r) :: t, b, h => by
    simp only [List.map_cons, List.nodup_cons] at h
    simp only [runBal, List.map_cons, applyRun]
    have hfind : findU ((i, b, b + r.loanAmount) :: runBal (b + r.loanAmount) t) (i, r).1 =
        some (b, b + r.loanAmount) := by
      rw [show findU ((i, b, b + r.loanAmount) :: runBal (b + r.loanAmount) t) (i, r).1 =
        if i = (i, r).1 then some (b, b + r.loanAmount)
        else findU (runBal (b + r.loanAmount) t) (i, r).1 from rfl]
      exact if_pos rfl
    have hhead : applyU ((i, b, b + r.loanAmount) :: runBal (b + r.loanAmount) t) (i, r) =
        { r with balanceBefore := b, balanceAfter := b + r.loanAmount } := by
      unfold applyU
      rw [hfind]
    rw [hhead, map_applyU_cons i (b, b + r.loanAmount) (runBal (b + r.loanAmount) t) t h.1,
      map_applyU_runBal t (b + r.loanAmount) h.2]

theorem balancedFrom_applyRun : ∀ (b : ℚ) (S : List (Nat × LoanRow)),
    balancedFrom b (applyRun b S)
  | _, [] => trivial
  | b, (i, r) :: t => by
    refine ⟨rfl, rfl, ?_⟩
    exact balancedFrom_applyRun (b + r.loanAmount) t

theorem nodup_fst_filter_enum (s : List LoanRow) (P : Nat × LoanRow → Bool) :
    (((s.enum.filter P).insertionSort loanLEIdx).map Prod.fst).Nodup := by
  have h1 : (s.enum.filter P).Sublist s.enum := List.filter_sublist _
  have h2 : ((s.enum.filter P).map Prod.fst).Sublist (s.enum.map Prod.fst) := h1.map _
  have h3 : (s.enum.map Prod.fst).Nodup := by
    rw [List.enum_map_fst]; exact List.nodup_range _
  have h4 : ((s.enum.filter P).map Prod.fst).Nodup := h2.nodup h3
  exact (((List.perm_insertionSort loanLEIdx (s.enum.filter P)).map Prod.fst).symm).nodup h4

theorem recalc_eq (s : List LoanRow) (e : String) :
    recalculateLoanBalances s e =
      (s.enum).map (applyU (runBal 0
        (((s.enum).filter fun p => p.2.employeeId = e).insertionSort loanLEIdx))) := rfl

theorem filter_map_applyU (s : List LoanRow) (e : String) (us : List (Nat × ℚ × ℚ)) :
    ((s.enum).map (applyU us)).filter (fun t => t.employeeId = e) =
      ((s.enum).filter fun p => p.2.employeeId = e).map (applyU us) := by
  rw [List.filter_map]
  have hpred : ((fun t : LoanRow => decide (t.employeeId = e)) ∘ applyU us) =
      fun p : Nat × LoanRow => decide (p.2.employeeId = e) := by
    funext p
    simp only [Function.comp_apply, applyU_employeeId]
  rw [hpred]

theorem filter_recalc (s : List LoanRow) (e : String) :
    (recalculateLoanBalances s e).filter (fun t => t.employeeId = e) =
      ((s.enum).filter fun p => p.2.employeeId = e).map
        (applyU (runBal 0 (((s.enum).filter fun p => p.2.employeeId = e).insertionSort loanLEIdx))) := by
  rw [recalc_eq]
  exact filter_map_applyU s e _

theorem history_recalc (s : List LoanRow) (e : String) :
    getLoanHistory (recalculateLoanBalances s e) e =
      applyRun 0 (((s.enum).filter fun p => p.2.employeeId = e).insertionSort loanLEIdx) := by
  unfold getLoanHistory
  rw [filter_recalc,
    insertionSort_map_rel loanLE loanLEIdx _ (loanLE_applyU _),
    map_applyU_runBal _ 0 (nodup_fst_filter_enum s _)]

theorem enum_map_pair (s : List LoanRow) (f : Nat × LoanRow → LoanRow) :
    ((s.enum).map f).enum = (s.enum).map fun p => (p.1, f p) := by
  apply List.ext_getElem
  · simp
  · intro i h1 h2
    simp [List.getElem_enum, List.getElem_map]

/-- Claim C1: for every employee and every loans-sheet state (hence for
every set of recorded transactions, in any insertion order), after
`recalculateLoanBalances` the employee's transactions ordered ascending by
`(TransactionDate, Timestamp)` satisfy `balanceBefore[0] = 0`,
`balanceAfter[i] = balanceBefore[i] + loanAmount[i]`, and
`balanceBefore[i+1] = balanceAfter[i]`. -/
theorem loan_chain_invariant_after_recalculate (s : List LoanRow) (e : String) :
    balancedFrom 0 (getLoanHistory (recalculateLoanBalances s e) e) ∧
    List.Sorted loanLE (getLoanHistory (recalculateLoanBalances s e) e) := by
  constructor
  · rw [history_recalc]
    exact balancedFrom_applyRun 0 _
  · unfold getLoanHistory
    exact List.sorted_insertionSort loanLE _

/-- Claim C4: `recalculateLoanBalances` is idempotent on the stored
sheet — running it twice produces stored values identical to running it
once. -/
theorem recalculate_idempotent (s : List LoanRow) (e : String) :
    recalculateLoanBalances (recalculateLoanBalances s e) e = recalculateLoanBalances s e := by
  have happ : ∀ (us : List (Nat × ℚ × ℚ)) (p : Nat × LoanRow),
      applyU us (p.1, applyU us p) = applyU us p := by
    intro us p
    change (match findU us p.1 with
      | some bb => { applyU us p with balanceBefore := bb.1, balanceAfter := bb.2 }
      | none => applyU us p) = applyU us p
    unfold applyU
    cases h : findU us p.1 <;> rfl
  rw [recalc_eq s e]
  set U := runBal 0 (((s.enum).filter fun p => p.2.employeeId = e).insertionSort loanLEIdx) with hU
  rw [recalc_eq ((s.enum).map (applyU U)) e, enum_map_pair s (applyU U)]
  rw [List.filter_map]
  have hpred : ((fun p : Nat × LoanRow => decide (p.2.employeeId = e)) ∘
      fun p : Nat × LoanRow => (p.1, applyU U p)) =
      fun p : Nat × LoanRow => decide (p.2.employeeId = e) := by
    funext p
    simp only [Function.comp_apply, applyU_employeeId]
  rw [hpred]
  have hrel : ∀ a b : Nat × LoanRow,
      loanLEIdx ((fun p : Nat × LoanRow => (p.1, applyU U p)) a)
        ((fun p : Nat × LoanRow => (p.1, applyU U p)) b) ↔ loanLEIdx a b := by
    intro a b
    exact loanLE_applyU U a b
  rw [insertionSort_map_rel loanLEIdx loanLEIdx (fun p : Nat × LoanRow => (p.1, applyU U p)) hrel,
    runBal_map_rel (fun p : Nat × LoanRow => (p.1, applyU U p)) (fun p => rfl)
      (fun p => applyU_loanAmount U p) 0, ← hU,
    List.map_map]
  have hfun : (applyU U ∘ fun p : Nat × LoanRow => (p.1, applyU U p)) = applyU U := by
    funext p
    exact happ U p
  rw [hfun]

theorem mem_enum_getElem (s : List LoanRow) (p : Nat × LoanRow) (hp : p ∈ s.enum) :
    s[p.1]? = some p.2 := by
  obtain ⟨n, hn, hget⟩ := List.mem_iff_getElem.mp hp
  rw [List.getElem_enum] at hget
  rw [← hget]
  exact List.getElem?_eq_getElem (by simpa using hn)

theorem recalc_getElem? (s : List LoanRow) (e : String) (i : Nat) (r : LoanRow)
    (h : s[i]? = some r) :
    (recalculateLoanBalances s e)[i]? =
      some (applyU (runBal 0
        (((s.enum).filter fun p => p.2.employeeId = e).insertionSort loanLEIdx)) (i, r)) := by
  rw [recalc_eq, List.getElem?_map, List.getElem?_enum, h]
  rfl

theorem applyU_of_findU_none (us : List (Nat × ℚ × ℚ)) (p : Nat × LoanRow)
    (h : findU us p.1 = none) : applyU us p = p.2 := by
  unfold applyU
  rw [h]

theorem findU_none_of_other_employee (s : List LoanRow) (e : String) (i : Nat) (r : LoanRow)
    (hr : s[i]? = some r) (hne : r.employeeId ≠ e) :
    findU (runBal 0
      (((s.enum).filter fun p => p.2.employeeId = e).insertionSort loanLEIdx)) i = none := by
  apply findU_eq_none
  rw [runBal_map_fst]
  intro hmem
  have hperm :=
    (List.perm_insertionSort loanLEIdx ((s.enum).filter fun p => p.2.employeeId = e)).map Prod.fst
  rw [hperm.mem_iff] at hmem
  obtain ⟨p, hpF, hpi⟩ := List.mem_map.mp hmem
  have hpmem : p ∈ s.enum := List.mem_of_mem_filter hpF
  have hpe : p.2.employeeId = e := by
    have := List.of_mem_filter hpF
    simpa using this
  have hfound := mem_enum_getElem s p hpmem
  rw [hpi, hr] at hfound
  injection hfound with h2
  exact hne (by rw [h2]; exact hpe)

/-- Claim C9: recalculation for an employee rewrites only the
`BalanceBefore`/`BalanceAfter` fields of that employee's rows; every other
field of every row, and every row of a different employee, is unchanged,
and the sheet keeps its length. -/
theorem recalculate_frame (s : List LoanRow) (e : String) :
    (recalculateLoanBalances s e).length = s.length ∧
    ∀ (i : Nat) (r r2 : LoanRow), s[i]? = some r →
      (recalculateLoanBalances s e)[i]? = some r2 →
      r2.loanId = r.loanId ∧ r2.employeeId = r.employeeId ∧ r2.timestamp = r.timestamp ∧
      r2.transactionDate = r.transactionDate ∧ r2.loanAmount = r.loanAmount ∧
      r2.salaryLink = r.salaryLink ∧ (r.employeeId ≠ e → r2 = r) := by
  constructor
  · rw [recalc_eq]
    simp
  · intro i r r2 hr hr2
    rw [recalc_getElem? s e i r hr] at hr2
    injection hr2 with h2
    subst h2
    refine ⟨applyU_loanId _ _, applyU_employeeId _ _, applyU_timestamp _ _,
      applyU_transactionDate _ _, applyU_loanAmount _ _, applyU_salaryLink _ _, ?_⟩
    intro hne
    exact applyU_of_findU_none _ (i, r) (findU_none_of_other_employee s e i r hr hne)

theorem recalculate_frame_witness :
    (recalculateLoanBalances [frameRow1, frameRow2] "E1")[1]? = some frameRow2 := by
  have h := (recalculate_frame [frameRow1, frameRow2] "E1").2 1 frameRow2
  cases hr2 : (recalculateLoanBalances [frameRow1, frameRow2] "E1")[1]? with
  | none => exact absurd hr2 (by decide)
  | some r2 => rw [(h r2 (by decide) hr2).2.2.2.2.2.2 (by decide)]

/-- Claim C8: `getCurrentLoanBalance` returns the `balanceAfter` of the
chronologically last transaction — the history is sorted ascending by
`(TransactionDate, Timestamp)`, with `Timestamp` breaking date ties, and is
a permutation of the employee's rows — or zero when none exist. -/
theorem current_balance_last_chronological (s : List LoanRow) (e : String) :
    List.Sorted loanLE (getLoanHistory s e) ∧
    (getLoanHistory s e).Perm (s.filter fun t => t.employeeId = e) ∧
    getCurrentLoanBalance s e =
      ((getLoanHistory s e).getLast?.map LoanRow.balanceAfter).getD 0 ∧
    ((s.filter fun t => t.employeeId = e) = [] → getCurrentLoanBalance s e = 0) := by
  refine ⟨?_, ?_, ?_, ?_⟩
  · unfold getLoanHistory
    exact List.sorted_insertionSort loanLE _
  · unfold getLoanHistory
    exact List.perm_insertionSort loanLE _
  · show (if (getLoanHistory s e).length = 0 then (0:ℚ)
      else ((getLoanHistory s e).getLastD default).balanceAfter) = _
    cases hh : getLoanHistory s e with
    | nil => simp
    | cons x t =>
      have hne : (x :: t) ≠ ([] : List LoanRow) := by simp
      obtain ⟨y, hy⟩ := Option.isSome_iff_exists.mp (List.getLast?_isSome.mpr hne)
      simp [hy]
  · intro hf
    show (if (getLoanHistory s e).length = 0 then (0:ℚ)
      else ((getLoanHistory s e).getLastD default).balanceAfter) = 0
    unfold getLoanHistory
    rw [hf]
    simp

theorem current_balance_last_chronological_witness :
    getCurrentLoanBalance [] "E9" = 0 :=
  (current_balance_last_chronological [] "E9").2.2.2 rfl

/-- Claim C7: an invalid loan form is rejected synchronously — the stored
ledger is returned unchanged and the result carries the list of every
violated rule (name, amount, date), not merely the first. -/
theorem add_loan_rejects_without_mutation (emps : List Employee) (s : List LoanRow)
    (newId : String) (now : Nat) (d : LoanForm)
    (h : (validateLoan d).isValid = false) :
    (addLoanTransaction emps s newId now d).1 = s ∧
    (addLoanTransaction emps s newId now d).2 = LoanAddResult.failure (validateLoan d).errors ∧
    (("Employee name is required." ∈ (validateLoan d).errors) ↔ d.employeeName = "") ∧
    (("Loan amount must be a positive number." ∈ (validateLoan d).errors) ↔
      (d.loanAmount = none ∨ ∃ a, d.loanAmount = some a ∧ a ≤ 0)) ∧
    (("Transaction date is required." ∈ (validateLoan d).errors) ↔ d.transactionDate = none) := by
  have hmain : addLoanTransaction emps s newId now d =
      (s, LoanAddResult.failure (validateLoan d).errors) := by
    unfold addLoanTransaction
    simp [h]
  refine ⟨by rw [hmain], by rw [hmain], ?_, ?_, ?_⟩ <;>
    rcases hl : d.loanAmount with _ | a <;>
    simp only [validateLoan, hl] <;>
    split_ifs <;>
    simp_all

theorem add_loan_rejects_without_mutation_witness :
    (addLoanTransaction [] [ledgerRow] "id1" 0 badLoanForm).1 = [ledgerRow] ∧
    (addLoanTransaction [] [ledgerRow] "id1" 0 badLoanForm).2 =
      LoanAddResult.failure ["Employee name is required.",
        "Loan amount must be a positive number.", "Transaction date is required."] := by
  have h := add_loan_rejects_without_mutation [] [ledgerRow] "id1" 0 badLoanForm (by decide)
  refine ⟨h.1, ?_⟩
  rw [h.2.1]
  decide

/-- Claim C5: `calculatePayslip` computes the documented formulas over the
inputs and the resolved employee's hourly rate and employment status. -/
theorem calculate_payslip_formulas (emps : List Employee) (d : PayslipInput) (emp : Employee)
    (h : getEmployeeByName emps d.employeeName = some emp) :
    ∀ c, calculatePayslip emps d = some c →
      c.hourlyRate = emp.hourlyRate ∧
      c.standardTime = num d.hours * emp.hourlyRate + emp.hourlyRate / 60 * num d.minutes ∧
      c.overtime = num d.overtimeHours * emp.hourlyRate * (3 / 2) +
        emp.hourlyRate / 60 * num d.overtimeMinutes * (3 / 2) ∧
      c.grossSalary = c.standardTime + c.overtime + num d.leavePay + num d.bonusPay +
        num d.otherIncome ∧
      c.uif = (if emp.employmentStatus = "Permanent" then c.grossSalary * (1 / 100) else 0) ∧
      c.totalDeductions = c.uif + num d.otherDeductions + num d.loanDeductionThisWeek ∧
      c.netSalary = c.grossSalary - c.totalDeductions ∧
      c.paidToAccount = c.netSalary - num d.loanDeductionThisWeek + num d.newLoanThisWeek := by
  intro c hc
  unfold calculatePayslip at hc
  rw [h] at hc
  injection hc with hc
  subst hc
  exact ⟨rfl, rfl, rfl, rfl, rfl, rfl, rfl, rfl⟩

theorem calculate_payslip_formulas_witness :
    (calculatePayslip [aliceEmployee] aliceWeek).elim False (fun c =>
      c.standardTime = 4000 ∧ c.overtime = 750 ∧ c.grossSalary = 4750 ∧
      c.uif = 95 / 2 ∧ c.totalDeductions = 95 / 2 ∧ c.netSalary = 9405 / 2 ∧
      c.paidToAccount = 9405 / 2) := by
  have h := calculate_payslip_formulas [aliceEmployee] aliceWeek aliceEmployee (by decide)
  cases hc : calculatePayslip [aliceEmployee] aliceWeek with
  | none => exact absurd hc (by decide)
  | some c =>
    obtain ⟨h0, h1, h2, h3, h4, h5, h6, h7⟩ := h c hc
    simp only [Option.elim]
    refine ⟨?_, ?_, ?_, ?_, ?_, ?_, ?_⟩
    · rw [h1]; norm_num [aliceWeek, aliceEmployee, num]
    · rw [h2]; norm_num [aliceWeek, aliceEmployee, num]
    · rw [h3, h1, h2]; norm_num [aliceWeek, aliceEmployee, num]
    · rw [h4, h3, h1, h2]; norm_num [aliceWeek, aliceEmployee, num]
    · rw [h5, h4, h3, h1, h2]; norm_num [aliceWeek, aliceEmployee, num]
    · rw [h6, h5, h4, h3, h1, h2]; norm_num [aliceWeek, aliceEmployee, num]
    · rw [h7, h6, h5, h4, h3, h1, h2]; norm_num [aliceWeek, aliceEmployee, num]

/-- Claim C10: absent or non-numeric numeric fields are coerced to zero by
validation and calculation rather than reported: validators and the derived
payroll fields behave exactly as if the field were a literal zero, and such
fields never trigger the non-negativity or 168-hour rules. -/
theorem missing_numeric_fields_coerce_to_zero :
    (∀ d, validatePayslip (fillZeros d) = validatePayslip d) ∧
    (∀ d, validateTimesheet (fillZeros d) = validateTimesheet d) ∧
    (∀ emps d, (calculatePayslip emps (fillZeros d)).map (fun c =>
        (c.hourlyRate, c.standardTime, c.overtime, c.grossSalary, c.uif,
          c.totalDeductions, c.netSalary, c.paidToAccount)) =
      (calculatePayslip emps d).map (fun c =>
        (c.hourlyRate, c.standardTime, c.overtime, c.grossSalary, c.uif,
          c.totalDeductions, c.netSalary, c.paidToAccount))) ∧
    (∀ d, d.hours = none → d.overtimeHours = none →
      "Hours cannot be negative" ∉ (validatePayslip d).errors ∧
      "Total hours exceed maximum possible (168 hours/week)" ∉ (validatePayslip d).errors) := by
  refine ⟨fun d => rfl, fun d => rfl, ?_, ?_⟩
  · intro emps d
    unfold calculatePayslip
    have hname : getEmployeeByName emps (fillZeros d).employeeName =
        getEmployeeByName emps d.employeeName := rfl
    rw [hname]
    cases getEmployeeByName emps d.employeeName with
    | none => rfl
    | some emp => rfl
  · intro d h1 h2
    constructor <;>
    · unfold validatePayslip
      simp only [h1, h2]
      norm_num [num]
      exact ⟨fun _ => by decide, fun _ => by decide⟩

theorem missing_numeric_fields_coerce_to_zero_witness :
    validatePayslip (fillZeros blankInput) = validatePayslip blankInput ∧
    "Hours cannot be negative" ∉ (validatePayslip blankInput).errors :=
  ⟨missing_numeric_fields_coerce_to_zero.1 blankInput,
   (missing_numeric_fields_coerce_to_zero.2.2.2 blankInput rfl rfl).1⟩

/-- Counterexample to claim C6 as stated: a timesheet input with
hours + overtime = 170 > 168 nevertheless passes `validateTimesheet`,
because the timesheet validator has no 168-hour rule. -/
theorem hours_cap_timesheet_counterexample :
    num overloadedWeek.hours + num overloadedWeek.overtimeHours = 170 ∧
    (168:ℚ) < 170 ∧
    (validateTimesheet overloadedWeek).isValid = true := by
  refine ⟨by norm_num [overloadedWeek, num], by norm_num, by decide⟩

/-- Claim C6 (amended): only the payslip validator enforces the 168-hour
cap — with name and week ending present and non-negative hours it accepts
exactly when hours + overtime ≤ 168 (so 100/70 is rejected and 100/68
accepted) — while the timesheet validator accepts any such input. -/
theorem hours_cap_payslip_only (d : PayslipInput)
    (h1 : ¬ d.employeeName = "") (h2 : ¬ d.weekEnding = none)
    (h3 : 0 ≤ num d.hours) (h4 : 0 ≤ num d.overtimeHours) :
    ((validatePayslip d).isValid = true ↔ num d.hours + num d.overtimeHours ≤ 168) ∧
    (validateTimesheet d).isValid = true := by
  have hneg : ¬(num d.hours < 0 ∨ num d.overtimeHours < 0) := by
    push_neg
    exact ⟨h3, h4⟩
  constructor
  · unfold validatePayslip
    by_cases hc : num d.hours + num d.overtimeHours > 168
    · simp only [if_neg h1, if_neg h2, if_neg hneg, if_pos hc]
      simp
      linarith
    · simp only [if_neg h1, if_neg h2, if_neg hneg, if_neg hc]
      simp
      linarith
  · unfold validateTimesheet
    simp [if_neg h1, if_neg h2, if_neg hneg]

theorem hours_cap_payslip_only_witness :
    (validatePayslip boundaryWeek).isValid = true ∧
    (validateTimesheet boundaryWeek).isValid = true := by
  have h := hours_cap_payslip_only boundaryWeek (by decide) (by decide) (by decide) (by decide)
  exact ⟨h.1.mpr (by norm_num [boundaryWeek, num]), h.2⟩

theorem createPayslip_success (emps : List Employee) (salary : List PayslipRow)
    (loans : List LoanRow) (now : Nat) (user : String) (d : PayslipInput)
    (hv : (validatePayslip d).isValid = true) (c : PayslipComputed)
    (hc : calculatePayslip emps d = some c) :
    createPayslip emps salary loans now user d =
      ((salary ++ [appendedRow salary c now user], loans),
       CreateResult.success "Payslip created successfully." (lastRecordNumber salary + 1)) := by
  unfold createPayslip
  simp [hv, hc, appendedRow]

theorem lastRecordNumber_append (salary : List PayslipRow) (row : PayslipRow)
    (h : ¬ row.recordNumber = 0) :
    lastRecordNumber (salary ++ [row]) = row.recordNumber := by
  unfold lastRecordNumber
  rw [List.getLast?_concat]
  simp [h]

/-- Counterexample to claim C3 as stated: on a sheet whose last row does
not hold the maximal record number, `createPayslip` assigns
`last + 1 = 7921` and not `max(existing) + 1 = 8001`. -/
theorem record_number_counterexample :
    (createPayslip recnumEmps unsortedSalary [] 0 "u" recnumInput).2 =
      CreateResult.success "Payslip created successfully." (lastRecordNumber unsortedSalary + 1) ∧
    lastRecordNumber unsortedSalary + 1 = 7921 ∧
    specNextRecordNumber unsortedSalary = 8001 ∧
    (7921:ℚ) < 8001 := by
  have hv : (validatePayslip recnumInput).isValid = true := by
    norm_num [validatePayslip, recnumInput, num]
    decide
  have hsome : (calculatePayslip recnumEmps recnumInput).isSome = true := rfl
  obtain ⟨c, hc⟩ := Option.isSome_iff_exists.mp hsome
  have hstep := createPayslip_success recnumEmps unsortedSalary [] 0 "u" recnumInput hv c hc
  have hlast : lastRecordNumber unsortedSalary = 7920 := rfl
  refine ⟨by rw [hstep], by rw [hlast]; norm_num, ?_, by norm_num⟩
  norm_num [specNextRecordNumber, unsortedSalary]

theorem createRun_cons_success (emps : List Employee) (now : Nat) (user : String)
    (d : PayslipInput) (ds : List PayslipInput) (salary salary2 : List PayslipRow)
    (loans2 : List LoanRow) (msg : String) (n : ℚ)
    (h : createPayslip emps salary [] now user d = ((salary2, loans2), CreateResult.success msg n)) :
    createRun emps now user (d :: ds) salary =
      ((createRun emps now user ds salary2).1, n :: (createRun emps now user ds salary2).2) := by
  have he : createRun emps now user (d :: ds) salary =
      (match createPayslip emps salary [] now user d with
        | ((s2, _), CreateResult.success _ m) =>
          ((createRun emps now user ds s2).1, m :: (createRun emps now user ds s2).2)
        | ((s2, _), _) => createRun emps now user ds s2) := rfl
  rw [he, h]

/-- Claim C3 (amended): the record number assigned by `createPayslip` is
one plus the column-1 value of the last existing row (with the 7915 floor
for a blank cell), not one plus the maximum of all rows; consequently a
sequence of N valid creations yields the consecutive record numbers
`last + 1, ..., last + N` — strictly increasing, unique and gap-free. -/
theorem record_number_sequence (emps : List Employee) (now : Nat) (user : String)
    (ds : List PayslipInput) (salary : List PayslipRow)
    (hv : ∀ d ∈ ds, (validatePayslip d).isValid = true)
    (hr : ∀ d ∈ ds, (calculatePayslip emps d).isSome = true)
    (hL : 0 ≤ lastRecordNumber salary) :
    (createRun emps now user ds salary).2 =
      (List.range ds.length).map (fun k : Nat => lastRecordNumber salary + 1 + (k : ℚ)) := by
  induction ds generalizing salary with
  | nil => rfl
  | cons d ds ih =>
    obtain ⟨c, hc⟩ := Option.isSome_iff_exists.mp (hr d (by simp))
    have hstep := createPayslip_success emps salary [] now user d (hv d (by simp)) c hc
    rw [createRun_cons_success emps now user d ds salary _ _ _ _ hstep]
    have hrow : lastRecordNumber (salary ++ [appendedRow salary c now user]) =
        lastRecordNumber salary + 1 := by
      rw [lastRecordNumber_append]
      · rfl
      · intro hzero
        simp only [appendedRow] at hzero
        linarith
    simp only
    rw [ih _ (fun x hx => hv x (by simp [hx])) (fun x hx => hr x (by simp [hx]))
      (by rw [hrow]; linarith), hrow]
    rw [List.length_cons, List.range_succ_eq_map, List.map_cons, List.map_map]
    congr 1
    · norm_num
    · apply List.map_congr_left
      intro k hk
      simp only [Function.comp_apply]
      push_cast
      ring

theorem record_number_sequence_witness :
    (createRun recnumEmps 0 "u" [recnumInput, recnumInput, recnumInput] unsortedSalary).2 =
      [7921, 7922, 7923] := by
  have hone : (validatePayslip recnumInput).isValid = true := by
    norm_num [validatePayslip, recnumInput, num]
    decide
  have hv : ∀ d ∈ [recnumInput, recnumInput, recnumInput],
      (validatePayslip d).isValid = true := by
    intro d hd
    simp only [List.mem_cons, List.mem_singleton, List.not_mem_nil, or_false] at hd
    rcases hd with hd | hd | hd <;> rw [hd] <;> exact hone
  have hr : ∀ d ∈ [recnumInput, recnumInput, recnumInput],
      (calculatePayslip recnumEmps d).isSome = true := by
    intro d hd
    simp only [List.mem_cons, List.mem_singleton, List.not_mem_nil, or_false] at hd
    rcases hd with hd | hd | hd <;> rw [hd] <;> rfl
  have hlast : lastRecordNumber unsortedSalary = 7920 := rfl
  rw [record_number_sequence recnumEmps 0 "u" _ unsortedSalary hv hr (by rw [hlast]; norm_num),
    hlast]
  norm_num [List.range_succ]

theorem createPayslip_loans_unchanged (emps : List Employee) (salary : List PayslipRow)
    (loans : List LoanRow) (now : Nat) (user : String) (d : PayslipInput) :
    (createPayslip emps salary loans now user d).1.2 = loans := by
  by_cases hval : (validatePayslip d).isValid = false
  · simp [createPayslip, hval]
  · cases hcal : calculatePayslip emps d <;> simp [createPayslip, hval, hcal]

/-- Claim C2 (code bug): `createPayslip` never records any loan
transaction — the loans sheet is returned unchanged by every call, and
`syncLoanForPayslip` is an identity stub — so a valid payslip with
`loanDeductionThisWeek = 50 > 0` succeeds yet leaves the ledger
untouched, contrary to the documented Repayment/Disbursement coupling. -/
theorem create_payslip_never_writes_ledger :
    (∀ (emps : List Employee) (salary : List PayslipRow) (loans : List LoanRow)
      (now : Nat) (user : String) (d : PayslipInput),
      (createPayslip emps salary loans now user d).1.2 = loans) ∧
    (∀ (n : ℚ) (loans : List LoanRow), syncLoanForPayslip n loans = loans) ∧
    num loanCoupleInput.loanDeductionThisWeek = 50 ∧
    (createPayslip loanCoupleEmps [] loanCoupleLedger 0 "u" loanCoupleInput).2 =
      CreateResult.success "Payslip created successfully." 7916 ∧
    (createPayslip loanCoupleEmps [] loanCoupleLedger 0 "u" loanCoupleInput).1.2 =
      loanCoupleLedger := by
  refine ⟨fun emps salary loans now user d => createPayslip_loans_unchanged emps salary loans now user d,
    fun n loans => rfl, rfl, ?_,
    createPayslip_loans_unchanged loanCoupleEmps [] loanCoupleLedger 0 "u" loanCoupleInput⟩
  have hv : (validatePayslip loanCoupleInput).isValid = true := by
    norm_num [validatePayslip, loanCoupleInput, num]
    decide
  have hsome : (calculatePayslip loanCoupleEmps loanCoupleInput).isSome = true := rfl
  obtain ⟨c, hc⟩ := Option.isSome_iff_exists.mp hsome
  rw [createPayslip_success loanCoupleEmps [] loanCoupleLedger 0 "u" loanCoupleInput hv c hc]
  have hlast : lastRecordNumber [] = 7915 := rfl
  show CreateResult.success "Payslip created successfully." (lastRecordNumber [] + 1) =
    CreateResult.success "Payslip created successfully." 7916
  rw [hlast]
  norm_num
